import Mathlib

/-!
Shallow embedding of the parsing-and-query core of `iss_tracker.py`
(Jasmineeds/iss-tracker-flask) together with proofs about the behaviour
of its operations.

Conventions of the embedding:
* Python floats are modelled as real numbers (`ℝ`); the semantics of the
  Python builtin `float(s)` applied to a string is abstracted as a
  parameter `pf : String → Option ℝ` (`none` models a `ValueError`).
* The nested dictionary produced by `xmltodict.parse` is modelled by the
  structure chain `XmlDoc → NdmNode → OemNode → BodyNode → SegmentNode →
  DataNode → List SVEntry`, each level optional exactly as the source's
  defensive `.get(key, {})` chain expects.
* Fallible Python code is modelled with `Option`/`Except`; module-level
  state (the Redis cache, the network feed) is passed explicitly through
  a `World` record.
-/

namespace IssTracker

/-- One fully parsed state-vector record, as built by `parse_iss_data`:
the value appended to `parsed_iss_data` for each `stateVector` entry. -/
structure StateVector where
  EPOCH : String
  X : ℝ
  Y : ℝ
  Z : ℝ
  X_DOT : ℝ
  Y_DOT : ℝ
  Z_DOT : ℝ

/-- An XML leaf of the form `{'@units': ..., '#text': ...}` as produced by
`xmltodict` for the numeric fields of a state vector.  The `'#text'`
payload may be absent (`text = none`), in which case the source's
`.get("#text", 0)` supplies the integer default `0`. -/
structure TaggedValue where
  units : Option String
  text : Option String

/-- One raw `stateVector` entry of the parsed XML document.  Every key may
be absent, mirroring the `.get` accesses of the source. -/
structure SVEntry where
  EPOCH : Option String
  X : Option TaggedValue
  Y : Option TaggedValue
  Z : Option TaggedValue
  X_DOT : Option TaggedValue
  Y_DOT : Option TaggedValue
  Z_DOT : Option TaggedValue

/-- Level `data` of the document: holds the `stateVector` list. -/
structure DataNode where
  stateVector : Option (List SVEntry)

/-- Level `segment` of the document. -/
structure SegmentNode where
  data : Option DataNode

/-- Level `body` of the document. -/
structure BodyNode where
  segment : Option SegmentNode

/-- Level `oem` of the document. -/
structure OemNode where
  body : Option BodyNode

/-- Level `ndm` of the document. -/
structure NdmNode where
  oem : Option OemNode

/-- The whole parsed XML document handed to `parse_iss_data`. -/
structure XmlDoc where
  ndm : Option NdmNode

/-- The defensive navigation
`xml_data.get("ndm", {}).get("oem", {}).get("body", {}).get("segment", {})
.get("data", {}).get("stateVector", [])` of `parse_iss_data`: a missing
level yields the empty default at the next level, so the final result is
`[]` whenever any intermediate container is absent. -/
def extract_state_vectors (xml_data : XmlDoc) : List SVEntry :=
  ((((((xml_data.ndm.bind NdmNode.oem).bind OemNode.body).bind
      BodyNode.segment).bind SegmentNode.data).bind
      DataNode.stateVector).getD [])

/-- The conversion `float(state_vector.get(K, {}).get("#text", 0))` for one
numeric field `K`: an absent key or an absent `'#text'` payload defaults to
the integer `0` (which `float` converts to `0.0`); a present payload `s`
goes through `float(s)`, modelled by `pf s`, whose failure (`none`) is the
`ValueError` that drops the record. -/
def parseField (pf : String → Option ℝ) : Option TaggedValue → Option ℝ
  | none => some 0
  | some tv =>
    match tv.text with
    | none => some 0
    | some s => pf s

/-- The body of the per-record `try` block of `parse_iss_data`: builds the
`data_point` dictionary for one `stateVector` entry; `none` models the
`ValueError` caught at the bottom of the loop (record dropped). -/
def parseStateVector (pf : String → Option ℝ) (sv : SVEntry) :
    Option StateVector := do
  let x ← parseField pf sv.X
  let y ← parseField pf sv.Y
  let z ← parseField pf sv.Z
  let xd ← parseField pf sv.X_DOT
  let yd ← parseField pf sv.Y_DOT
  let zd ← parseField pf sv.Z_DOT
  pure { EPOCH := sv.EPOCH.getD "", X := x, Y := y, Z := z,
         X_DOT := xd, Y_DOT := yd, Z_DOT := zd }

/-- The function `parse_iss_data`: extracts the state-vector list, raises
`ValueError` when it is empty or absent (caught by the enclosing
`except Exception`, which returns `[]`), and otherwise converts the
entries one by one, dropping any entry whose conversion raises
`ValueError`. -/
def parse_iss_data (pf : String → Option ℝ) (xml_data : XmlDoc) :
    List StateVector :=
  let state_vectors := extract_state_vectors xml_data
  if state_vectors.isEmpty then []
  else state_vectors.filterMap (parseStateVector pf)

/-- The record that `parse_iss_data` appends for an entry none of whose
present `'#text'` payloads fails `float`: each field is the parsed payload,
with absent keys and absent payloads defaulting to `0`. -/
def recordOf (pf : String → Option ℝ) (sv : SVEntry) : StateVector :=
  { EPOCH := sv.EPOCH.getD ""
    X := (parseField pf sv.X).getD 0
    Y := (parseField pf sv.Y).getD 0
    Z := (parseField pf sv.Z).getD 0
    X_DOT := (parseField pf sv.X_DOT).getD 0
    Y_DOT := (parseField pf sv.Y_DOT).getD 0
    Z_DOT := (parseField pf sv.Z_DOT).getD 0 }

/-- A single field survives `float` conversion: whenever its key and
`'#text'` payload are present, the payload is numerically parseable. -/
def FieldParses (pf : String → Option ℝ) (f : Option TaggedValue) : Prop :=
  ∀ tv s, f = some tv → tv.text = some s → (pf s).isSome

/-- All six numeric fields of an entry survive `float` conversion. -/
def SVParses (pf : String → Option ℝ) (sv : SVEntry) : Prop :=
  FieldParses pf sv.X ∧ FieldParses pf sv.Y ∧ FieldParses pf sv.Z ∧
  FieldParses pf sv.X_DOT ∧ FieldParses pf sv.Y_DOT ∧ FieldParses pf sv.Z_DOT

lemma parseField_isSome_iff (pf : String → Option ℝ) (f : Option TaggedValue) :
    (parseField pf f).isSome ↔ FieldParses pf f := by
  constructor
  · intro h tv s hf ht
    subst hf
    simp only [parseField, ht] at h
    exact h
  · intro h
    match f with
    | none => simp [parseField]
    | some tv =>
      match htv : tv.text with
      | none => simp [parseField, htv]
      | some s => simpa [parseField, htv] using h tv s rfl htv

lemma parseStateVector_eq_some (pf : String → Option ℝ) (sv : SVEntry)
    (h : SVParses pf sv) : parseStateVector pf sv = some (recordOf pf sv) := by
  obtain ⟨h1, h2, h3, h4, h5, h6⟩ := h
  rw [← parseField_isSome_iff] at h1 h2 h3 h4 h5 h6
  obtain ⟨x, hx⟩ := Option.isSome_iff_exists.mp h1
  obtain ⟨y, hy⟩ := Option.isSome_iff_exists.mp h2
  obtain ⟨z, hz⟩ := Option.isSome_iff_exists.mp h3
  obtain ⟨xd, hxd⟩ := Option.isSome_iff_exists.mp h4
  obtain ⟨yd, hyd⟩ := Option.isSome_iff_exists.mp h5
  obtain ⟨zd, hzd⟩ := Option.isSome_iff_exists.mp h6
  simp [parseStateVector, recordOf, hx, hy, hz, hxd, hyd, hzd]

lemma parseStateVector_eq_none (pf : String → Option ℝ) (sv : SVEntry)
    (h : ¬ SVParses pf sv) : parseStateVector pf sv = none := by
  by_contra hne
  obtain ⟨r, hr⟩ := Option.ne_none_iff_exists'.mp hne
  apply h
  have hx : (parseField pf sv.X).isSome := by
    cases hc : parseField pf sv.X <;> simp [parseStateVector, hc] at hr ⊢
  have hy : (parseField pf sv.Y).isSome := by
    cases hc : parseField pf sv.Y <;> simp [parseStateVector, hc] at hr ⊢
  have hz : (parseField pf sv.Z).isSome := by
    cases hc : parseField pf sv.Z <;> simp [parseStateVector, hc] at hr ⊢
  have hxd : (parseField pf sv.X_DOT).isSome := by
    cases hc : parseField pf sv.X_DOT <;> simp [parseStateVector, hc] at hr ⊢
  have hyd : (parseField pf sv.Y_DOT).isSome := by
    cases hc : parseField pf sv.Y_DOT <;> simp [parseStateVector, hc] at hr ⊢
  have hzd : (parseField pf sv.Z_DOT).isSome := by
    cases hc : parseField pf sv.Z_DOT <;> simp [parseStateVector, hc] at hr ⊢
  rw [parseField_isSome_iff] at hx hy hz hxd hyd hzd
  exact ⟨hx, hy, hz, hxd, hyd, hzd⟩

lemma filterMap_eq_map_of_all_some {α β : Type} (g : α → Option β) (f : α → β) :
    ∀ (l : List α), (∀ a ∈ l, g a = some (f a)) → l.filterMap g = l.map f
  | [], _ => rfl
  | a :: t, h => by
    have ha := h a (List.mem_cons_self a t)
    have ht := filterMap_eq_map_of_all_some g f t
      (fun b hb => h b (List.mem_cons_of_mem a hb))
    simp [List.filterMap_cons, ha, ht]

/-- The speed magnitude
`(data_point["X_DOT"]**2 + data_point["Y_DOT"]**2 + data_point["Z_DOT"]**2)**0.5`
accumulated by `cal_average_speed` (also the body of
`cal_instantaneous_speed`). -/
noncomputable def cal_instantaneous_speed (d : StateVector) : ℝ :=
  Real.sqrt (d.X_DOT ^ 2 + d.Y_DOT ^ 2 + d.Z_DOT ^ 2)

/-- The function `cal_average_speed`: a `for` loop accumulating the speed
of every record into `total_speed`, then
`total_speed / len(iss_data) if iss_data else 0.0`.  (The enclosing
`try/except` can only fire on a malformed record dictionary, which the
record type rules out here.) -/
noncomputable def cal_average_speed (iss_data : List StateVector) : ℝ :=
  let total_speed := iss_data.foldl
    (fun acc d => acc + Real.sqrt (d.X_DOT ^ 2 + d.Y_DOT ^ 2 + d.Z_DOT ^ 2)) 0
  if iss_data.isEmpty then 0 else total_speed / (iss_data.length : ℝ)

/-- Outcome of the `/epochs` handler `get_modified_epochs_list`, with the
dataset supplied as an argument (the `get_iss_data_cached()` call
abstracted): `invalidArgument` is the 400 response produced by the caught
`ValueError`, `noResponse` is the fall-through path (no `return` executes)
taken when the dataset is falsy. -/
inductive PagResult where
  | ok (slice : List StateVector)
  | invalidArgument
  | noResponse


/-- The `/epochs` handler `get_modified_epochs_list` on integer query
parameters: raises `ValueError` (caught, 400) when `limit < 0 or
offset < 0`; otherwise, when the dataset is truthy, returns the Python
slice `data[offset:offset + limit]`; when the dataset is empty it falls
through without returning a slice. -/
def get_modified_epochs_list (data : List StateVector) (limit offset : ℤ) :
    PagResult :=
  if limit < 0 ∨ offset < 0 then PagResult.invalidArgument
  else if data.isEmpty then PagResult.noResponse
  else PagResult.ok ((data.drop offset.toNat).take limit.toNat)

/-- Outcome of the `/epochs/<epoch>` handler `get_state_vectors_for_epoch`
with the dataset supplied as an argument: `notFound` is the 404 path. -/
inductive EpochResult where
  | ok (records : List StateVector)
  | notFound


/-- The `/epochs/<epoch>` handler `get_state_vectors_for_epoch`: when the
dataset is truthy it filters for records whose `EPOCH` equals the
requested epoch string and returns them when any exist; every other path
falls through to the 404 response. -/
def get_state_vectors_for_epoch (data : List StateVector) (epoch : String) :
    EpochResult :=
  if data.isEmpty then EpochResult.notFound
  else
    let epoch_data := data.filter (fun d => d.EPOCH == epoch)
    if epoch_data.isEmpty then EpochResult.notFound
    else EpochResult.ok epoch_data

/-- The sort key `abs(now - parser.isoparse(x["EPOCH"]))` of
`get_closest_data_point`; `toInstant` abstracts `dateutil`'s ISO-8601
parse `parser.isoparse` into an integer instant on a common timeline with
`now`. -/
def epochDelta (toInstant : String → ℤ) (now : ℤ) (d : StateVector) : ℤ :=
  |now - toInstant d.EPOCH|

/-- The function `get_closest_data_point`:
`sorted(iss_data, key=lambda x: abs(now - parser.isoparse(x["EPOCH"])))[0]`.
Python's `sorted` is a stable merge sort, modelled by `List.mergeSort`;
the `[0]` index raises `IndexError` on an empty list, modelled by
`head?`. -/
def get_closest_data_point (toInstant : String → ℤ) (now : ℤ)
    (iss_data : List StateVector) : Option StateVector :=
  let sorted_data := iss_data.mergeSort
    (fun a b => decide (epochDelta toInstant now a ≤ epochDelta toInstant now b))
  sorted_data.head?

/-- A Python value as seen through dictionary accesses: enough of the
dynamic value universe for the record dictionaries of this module. -/
inductive PyVal where
  | str (s : String)
  | num (x : ℝ)
  | dict (entries : List (String × PyVal))

/-- The dictionary a parsed record actually is at runtime: the keys built
by `parse_iss_data` are exactly `EPOCH`, `X`, `Y`, `Z`, `X_DOT`, `Y_DOT`,
`Z_DOT` (there is no lowercase `epoch` key and no nested `position`
dictionary). -/
def StateVector.toDict (r : StateVector) : List (String × PyVal) :=
  [("EPOCH", PyVal.str r.EPOCH), ("X", PyVal.num r.X),
   ("Y", PyVal.num r.Y), ("Z", PyVal.num r.Z),
   ("X_DOT", PyVal.num r.X_DOT), ("Y_DOT", PyVal.num r.Y_DOT),
   ("Z_DOT", PyVal.num r.Z_DOT)]

/-- Python's `d.get(k)` with default `None` on a record dictionary. -/
def dictGet (d : List (String × PyVal)) (k : String) : Option PyVal :=
  d.lookup k

/-- Python's `==` between the result of `s.get("epoch")` and the epoch
string of the URL: `None == str` and `float == str` are `False`; two
strings compare by equality. -/
def pyEqStr (v : Option PyVal) (s : String) : Bool :=
  match v with
  | some (PyVal.str e) => e == s
  | _ => false

/-- Python's `math.atan2(y, x)`: the full-quadrant arctangent. -/
noncomputable def atan2 (y x : ℝ) : ℝ :=
  if 0 < x then Real.arctan (y / x)
  else if x < 0 ∧ 0 ≤ y then Real.arctan (y / x) + Real.pi
  else if x < 0 ∧ y < 0 then Real.arctan (y / x) - Real.pi
  else if x = 0 ∧ 0 < y then Real.pi / 2
  else if x = 0 ∧ y < 0 then -(Real.pi / 2)
  else 0

/-- Python's `math.degrees`. -/
noncomputable def degrees (rad : ℝ) : ℝ := rad * 180 / Real.pi

/-- The JSON object returned by the `/epochs/<epoch>/location` handler on
its success path. -/
structure LocationResponse where
  epoch : String
  latitude : ℝ
  longitude : ℝ
  altitude_km : ℝ
  geoposition : String

/-- Outcome of the `/epochs/<epoch>/location` handler: `notFound` is the
404 `"Epoch not found"` response. -/
inductive LocResult where
  | ok (resp : LocationResponse)
  | notFound

/-- The `/epochs/<epoch>/location` handler `get_epoch_location`, with the
dataset supplied as an argument and the Nominatim reverse lookup
abstracted as `geocode` (`none` models both a failed lookup and a raised
exception, each of which yields the placeholder string).  The handler
scans with `next((s for s in data if s.get("epoch") == epoch), None)` and
reads `state.get("position", {})` — note the lowercase `epoch` key and the
nested `position` dictionary, neither of which exists in the records that
`parse_iss_data` builds. -/
noncomputable def get_epoch_location (geocode : ℝ → ℝ → Option String)
    (data : List StateVector) (epoch : String) : LocResult :=
  match data.find? (fun s => pyEqStr (dictGet s.toDict "epoch") epoch) with
  | none => LocResult.notFound
  | some state =>
    let position : List (String × PyVal) :=
      match dictGet state.toDict "position" with
      | some (PyVal.dict d) => d
      | _ => []
    let x : ℝ := match dictGet position "x" with
      | some (PyVal.num v) => v
      | _ => 0
    let y : ℝ := match dictGet position "y" with
      | some (PyVal.num v) => v
      | _ => 0
    let z : ℝ := match dictGet position "z" with
      | some (PyVal.num v) => v
      | _ => 0
    let xy_sqrt := Real.sqrt (x ^ 2 + y ^ 2)
    let latitude := degrees (atan2 z xy_sqrt)
    let longitude := degrees (atan2 y x)
    let altitude := Real.sqrt (x ^ 2 + y ^ 2 + z ^ 2) - 6371
    let geoposition := (geocode latitude longitude).getD "Unknown"
    LocResult.ok ⟨epoch, latitude, longitude, altitude, geoposition⟩

/-- The exceptions relevant to this module's control flow. -/
inductive PyExc where
  | nameError

/-- The module-level mutable state: the Redis value under the fixed key
`"iss_data"` (stored as `json.dumps` of the record list; held here in
deserialized form — the spec's round-trip property makes the encoding
lossless) and the network feed (`some doc`: `requests.get` succeeded with
`response.ok` and `xmltodict.parse` produced `doc`; `none`: the request
failed or returned non-2xx). -/
structure World where
  cache : Option (List StateVector)
  feed : Option XmlDoc

/-- Evaluation of `logger.info(...)`: the module imports only `logging`
and never binds a name `logger` (`setup_logging` merely calls
`logging.basicConfig`), so every evaluation of `logger` raises
`NameError`. -/
def logger_info (_msg : String) : Except PyExc Unit :=
  Except.error PyExc.nameError

/-- The function `fetch_iss_data`: on a successful fetch it parses the
document, writes the parsed list to Redis under `"iss_data"`, and then
evaluates `logger.info(...)` inside the `try` block; the resulting
`NameError` is caught by `except Exception`, which logs and returns
`None`.  On a failed fetch it logs and returns `None` without touching
the cache. -/
def fetch_iss_data (pf : String → Option ℝ) (w : World) :
    Option (List StateVector) × World :=
  match w.feed with
  | none => (none, w)
  | some doc =>
    let parsed_iss_data := parse_iss_data pf doc
    let w2 := { w with cache := some parsed_iss_data }
    match logger_info "Loaded state vectors into redis db." with
    | Except.ok _ => (some parsed_iss_data, w2)
    | Except.error _ => (none, w2)

/-- The function `get_iss_data_cached`: reads the Redis key `"iss_data"`;
on a hit it evaluates `logger.info(...)` and would return the
deserialized value; on a miss it evaluates `logger.info(...)` and would
fall through to `fetch_iss_data()`.  There is no `try` in this function,
so the `NameError` raised by `logger` propagates to the caller on both
paths. -/
def get_iss_data_cached (pf : String → Option ℝ) (w : World) :
    Except PyExc (Option (List StateVector)) × World :=
  match w.cache with
  | some data =>
    match logger_info "ISS data loaded from redis db." with
    | Except.ok _ => (Except.ok (some data), w)
    | Except.error e => (Except.error e, w)
  | none =>
    match logger_info "No ISS data found in redis db, fetching from ISS" with
    | Except.ok _ =>
      let fetched := fetch_iss_data pf w
      (Except.ok fetched.1, fetched.2)
    | Except.error e => (Except.error e, w)

lemma head_mergeSort_first_min {α : Type} (key : α → ℤ) :
    ∀ (l : List α), l ≠ [] →
      ∃ m l1 l2,
        (l.mergeSort (fun a b => decide (key a ≤ key b))).head? = some m ∧
        l = l1 ++ m :: l2 ∧
        (∀ x ∈ l, key m ≤ key x) ∧
        (∀ x ∈ l1, key m < key x) := by
  have htrans : ∀ (x y z : α), decide (key x ≤ key y) = true →
      decide (key y ≤ key z) = true → decide (key x ≤ key z) = true := by
    intro x y z hxy hyz
    simp only [decide_eq_true_eq] at hxy hyz ⊢
    exact le_trans hxy hyz
  have htotal : ∀ (x y : α),
      (decide (key x ≤ key y) || decide (key y ≤ key x)) = true := by
    intro x y
    simpa [Bool.or_eq_true, decide_eq_true_eq] using le_total (key x) (key y)
  intro l
  induction l with
  | nil => intro h; exact absurd rfl h
  | cons a t ih =>
    intro _
    obtain ⟨L1, L2, hms, hms2, hL1⟩ := List.mergeSort_cons htrans htotal a t
    cases L1 with
    | nil =>
      refine ⟨a, [], t, ?_, rfl, ?_, by simp⟩
      · rw [hms]; rfl
      · have hsorted := List.sorted_mergeSort htrans htotal (a :: t)
        rw [hms] at hsorted
        simp only [List.nil_append, List.pairwise_cons] at hsorted
        have hperm := List.mergeSort_perm (a :: t)
          (fun x y => decide (key x ≤ key y))
        rw [hms] at hperm
        simp only [List.nil_append] at hperm
        have hperm2 : L2.Perm t := hperm.cons_inv
        intro x hx
        rcases List.mem_cons.mp hx with rfl | hx2
        · exact le_refl _
        · have hxL2 : x ∈ L2 := hperm2.mem_iff.mpr hx2
          have := hsorted.1 x hxL2
          simpa [decide_eq_true_eq] using this
    | cons c t1 =>
      have htne : t ≠ [] := by
        intro hnil
        subst hnil
        simp [List.mergeSort_nil] at hms2
      obtain ⟨m, l1, l2, hhead, hsplit, hmin, hstrict⟩ := ih htne
      have hc : m = c := by
        rw [hms2] at hhead
        simpa using hhead.symm
      have hma : key m < key a := by
        have h1 := hL1 m (by rw [hc]; exact List.mem_cons_self c t1)
        simp only [Bool.not_eq_true', decide_eq_false_iff_not] at h1
        exact lt_of_not_le h1
      refine ⟨m, a :: l1, l2, ?_, by simp [hsplit], ?_, ?_⟩
      · rw [hms]
        simp [hc]
      · intro x hx
        rcases List.mem_cons.mp hx with rfl | hx2
        · exact le_of_lt hma
        · exact hmin x hx2
      · intro x hx
        rcases List.mem_cons.mp hx with rfl | hx2
        · exact hma
        · exact hstrict x hx2

/-- A concrete `float` semantics for witnesses: parses exactly the string
`"1"` (to `1.0`) and nothing else. -/
def pfOne : String → Option ℝ := fun s => if s = "1" then some 1 else none

/-- A concrete `float` semantics under which no string parses. -/
def pfNone : String → Option ℝ := fun _ => none

/-- A state-vector entry whose six numeric fields are all present with
payload `"1"`. -/
def svGood : SVEntry :=
  { EPOCH := some "2025-058T11:53:00.000Z"
    X := some ⟨some "km", some "1"⟩
    Y := some ⟨some "km", some "1"⟩
    Z := some ⟨some "km", some "1"⟩
    X_DOT := some ⟨some "km/s", some "1"⟩
    Y_DOT := some ⟨some "km/s", some "1"⟩
    Z_DOT := some ⟨some "km/s", some "1"⟩ }

/-- A state-vector entry whose `X` field carries a `'#text'` payload that
`float` cannot parse; its remaining numeric fields are absent (and so
would default to zero). -/
def svBad : SVEntry :=
  { EPOCH := some "2025-058T11:57:00.000Z"
    X := some ⟨some "km", some "bad"⟩
    Y := none, Z := none, X_DOT := none, Y_DOT := none, Z_DOT := none }

/-- Builds the fully nested document around a given state-vector list. -/
def docOf (l : List SVEntry) : XmlDoc :=
  ⟨some ⟨some ⟨some ⟨some ⟨some ⟨some l⟩⟩⟩⟩⟩⟩

/-- A document holding exactly the well-formed entry `svGood`. -/
def xmlGood : XmlDoc := docOf [svGood]

/-- A document holding exactly the malformed entry `svBad`. -/
def xmlBad : XmlDoc := docOf [svBad]

/-- A document whose top-level `ndm` container is missing. -/
def xmlMissing : XmlDoc := ⟨none⟩

/-- Concrete records for the query-engine witnesses. -/
def rec1 : StateVector := ⟨"E1", 1, 2, 3, 3, 4, 0⟩

/-- Second concrete record. -/
def rec2 : StateVector := ⟨"E2", 5, 6, 7, 0, 0, 0⟩

/-- Third concrete record. -/
def rec3 : StateVector := ⟨"E3", 8, 9, 10, 1, 1, 1⟩

lemma fieldParses_of_isSome (pf : String → Option ℝ) (u : Option String)
    (s : String) (h : (pf s).isSome) : FieldParses pf (some ⟨u, some s⟩) := by
  intro tv s2 h1 h2
  obtain rfl := Option.some_inj.mp h1
  obtain rfl : s = s2 := Option.some_inj.mp h2
  exact h

lemma svGood_parses : SVParses pfOne svGood := by
  have h : (pfOne "1").isSome := by simp [pfOne]
  exact ⟨fieldParses_of_isSome pfOne _ _ h, fieldParses_of_isSome pfOne _ _ h,
    fieldParses_of_isSome pfOne _ _ h, fieldParses_of_isSome pfOne _ _ h,
    fieldParses_of_isSome pfOne _ _ h, fieldParses_of_isSome pfOne _ _ h⟩

lemma isEmpty_false_of_ne_nil {α : Type} {l : List α} (h : l ≠ []) :
    l.isEmpty = false := by
  simpa [List.isEmpty_iff] using h

/-- C1: for every parsed XML document whose state-vector list consists of
well-formed entries (each present `'#text'` payload numerically
parseable), `parse_iss_data` returns one record per entry, in input
order, each record's numeric fields being the `float` value of the
corresponding `'#text'` payload (absent keys or payloads defaulting to
zero), and its length equals the number of entries. -/
theorem claim1_parse_wellformed (pf : String → Option ℝ) (xml_data : XmlDoc)
    (hwf : ∀ sv ∈ extract_state_vectors xml_data, SVParses pf sv) :
    parse_iss_data pf xml_data =
      (extract_state_vectors xml_data).map (recordOf pf) ∧
    (parse_iss_data pf xml_data).length =
      (extract_state_vectors xml_data).length ∧
    (∀ (f : Option TaggedValue) (tv : TaggedValue) (s : String) (v : ℝ),
      f = some tv → tv.text = some s → pf s = some v →
      parseField pf f = some v) := by
  have hmap : parse_iss_data pf xml_data =
      (extract_state_vectors xml_data).map (recordOf pf) := by
    by_cases hcase : extract_state_vectors xml_data = []
    · simp [parse_iss_data, hcase]
    · have h1 := isEmpty_false_of_ne_nil hcase
      unfold parse_iss_data
      simp only [h1, Bool.false_eq_true, if_false]
      exact filterMap_eq_map_of_all_some (parseStateVector pf) (recordOf pf) _
        (fun sv hsv => parseStateVector_eq_some pf sv (hwf sv hsv))
  refine ⟨hmap, by rw [hmap]; simp, ?_⟩
  intro f tv s v hf ht hv
  subst hf
  simp [parseField, ht, hv]

/-- Witness for C1 at a concrete document: the single well-formed entry
`svGood` is parsed into exactly its record. -/
theorem claim1_witness :
    parse_iss_data pfOne xmlGood = [recordOf pfOne svGood] :=
  (claim1_parse_wellformed pfOne xmlGood
    (fun _sv hsv => (List.mem_singleton.mp hsv) ▸ svGood_parses)).1

/-- C2 counterexample: the document `xmlBad` contains one processed
state-vector entry whose `X` payload is not parseable, yet the parse
output is empty — the record is dropped, not included with `X`
defaulting to zero, refuting the claim as stated. -/
theorem claim2_counterexample :
    (extract_state_vectors xmlBad).length = 1 ∧
    parse_iss_data pfNone xmlBad = [] :=
  ⟨rfl, rfl⟩

/-- C2 amended: an entry all of whose present `'#text'` payloads parse is
included in the output (with absent keys or payloads defaulting to
zero), an entry with a present but non-parseable payload is dropped
(only that record, the rest of the batch continues), and a missing key
or missing payload yields the default `0.0` rather than a failure. -/
theorem claim2_amended (pf : String → Option ℝ) (xml_data : XmlDoc)
    (sv : SVEntry) (hmem : sv ∈ extract_state_vectors xml_data) :
    (SVParses pf sv → recordOf pf sv ∈ parse_iss_data pf xml_data) ∧
    (¬ SVParses pf sv → parseStateVector pf sv = none) ∧
    (∀ f : Option TaggedValue,
      (f = none ∨ ∃ tv, f = some tv ∧ tv.text = none) →
      parseField pf f = some 0) := by
  refine ⟨?_, parseStateVector_eq_none pf sv, ?_⟩
  · intro hp
    have hne : extract_state_vectors xml_data ≠ [] := by
      intro h0
      rw [h0] at hmem
      simp at hmem
    have h1 := isEmpty_false_of_ne_nil hne
    unfold parse_iss_data
    simp only [h1, Bool.false_eq_true, if_false]
    exact List.mem_filterMap.mpr ⟨sv, hmem, parseStateVector_eq_some pf sv hp⟩
  · rintro f (rfl | ⟨tv, rfl, htv⟩)
    · rfl
    · simp [parseField, htv]

/-- Witness for C2 (amended) at a concrete document: the well-formed
entry's record is a member of the parse output. -/
theorem claim2_witness :
    recordOf pfOne svGood ∈ parse_iss_data pfOne xmlGood :=
  (claim2_amended pfOne xmlGood svGood (List.mem_singleton.mpr rfl)).1
    svGood_parses

/-- C8: whenever the nested state-vector container is missing or empty at
any level (so that the defensive extraction yields the empty list),
`parse_iss_data` returns the empty list to its caller — the internal
`ValueError` is caught at the top level of the parse. -/
theorem claim8_parse_missing_container (pf : String → Option ℝ)
    (xml_data : XmlDoc) (h : extract_state_vectors xml_data = []) :
    parse_iss_data pf xml_data = [] := by
  simp [parse_iss_data, h]

/-- Witness for C8 at a concrete document with the top-level container
missing. -/
theorem claim8_witness :
    extract_state_vectors xmlMissing = [] ∧
    parse_iss_data pfNone xmlMissing = [] :=
  ⟨rfl, claim8_parse_missing_container pfNone xmlMissing rfl⟩

/-- C3 counterexample: on the empty dataset, with the non-negative
parameters `limit = 5`, `offset = 0`, the handler returns no slice at all
(it falls through its `if data:` guard without executing any `return`),
instead of the empty slice the claim requires. -/
theorem claim3_counterexample :
    get_modified_epochs_list [] 5 0 = PagResult.noResponse := rfl

/-- C3 amended: for every non-empty dataset and non-negative integer
parameters the handler returns the Python slice
`data[offset:offset + limit]`, whose length is
`min(limit, max(0, N - offset))`; a negative `limit` or `offset` raises
`ValueError`, answered with HTTP 400; on the empty dataset the handler
falls through and produces no slice (and no 400). -/
theorem claim3_amended (data : List StateVector) (limit offset : ℤ) :
    (limit < 0 ∨ offset < 0 →
      get_modified_epochs_list data limit offset = PagResult.invalidArgument) ∧
    (0 ≤ limit → 0 ≤ offset → data ≠ [] →
      get_modified_epochs_list data limit offset =
        PagResult.ok ((data.drop offset.toNat).take limit.toNat) ∧
      (((data.drop offset.toNat).take limit.toNat).length : ℤ) =
        min limit (max 0 ((data.length : ℤ) - offset))) ∧
    (0 ≤ limit → 0 ≤ offset → data = [] →
      get_modified_epochs_list data limit offset = PagResult.noResponse) := by
  refine ⟨?_, ?_, ?_⟩
  · intro h
    unfold get_modified_epochs_list
    rw [if_pos h]
  · intro hl ho hne
    have hcond : ¬ (limit < 0 ∨ offset < 0) := by omega
    have h1 := isEmpty_false_of_ne_nil hne
    constructor
    · unfold get_modified_epochs_list
      rw [if_neg hcond]
      simp only [h1, Bool.false_eq_true, if_false]
    · have hlen : ((data.drop offset.toNat).take limit.toNat).length
          = min limit.toNat (data.length - offset.toNat) := by
        simp [List.length_take, List.length_drop]
      rw [hlen]
      omega
  · intro hl ho hnil
    subst hnil
    have hcond : ¬ ((limit : ℤ) < 0 ∨ offset < 0) := by omega
    unfold get_modified_epochs_list
    rw [if_neg hcond]
    rfl

/-- Witness for C3 (amended) at a concrete dataset: slicing `[rec1, rec2]`
with `limit = 5`, `offset = 1` yields `[rec2]`. -/
theorem claim3_witness :
    get_modified_epochs_list [rec1, rec2] 5 1 = PagResult.ok [rec2] :=
  ((claim3_amended [rec1, rec2] 5 1).2.1 (by norm_num) (by norm_num)
    (by simp)).1

lemma foldl_add_eq {α : Type} (f : α → ℝ) :
    ∀ (l : List α) (a : ℝ),
      l.foldl (fun acc d => acc + f d) a = a + (l.map f).sum
  | [], a => by simp
  | d :: t, a => by
    simp only [List.foldl_cons, List.map_cons, List.sum_cons]
    rw [foldl_add_eq f t (a + f d)]
    ring

/-- C4: `cal_average_speed` of the empty dataset is `0.0`, and on every
non-empty dataset it is exactly the arithmetic mean of the per-record
velocity norms (exact equality in the real-valued model, which implies
the claim's 1e-6 tolerance). -/
theorem claim4_average_speed :
    cal_average_speed [] = 0 ∧
    ∀ (l : List StateVector), l ≠ [] →
      cal_average_speed l =
        (l.map cal_instantaneous_speed).sum / (l.length : ℝ) := by
  constructor
  · rfl
  · intro l hne
    have h1 := isEmpty_false_of_ne_nil hne
    unfold cal_average_speed
    simp only [h1, Bool.false_eq_true, if_false]
    rw [foldl_add_eq
      (fun d : StateVector => Real.sqrt (d.X_DOT ^ 2 + d.Y_DOT ^ 2 + d.Z_DOT ^ 2))
      l 0]
    rw [zero_add]
    rfl

/-- Witness for C4 at a concrete one-record dataset. -/
theorem claim4_witness :
    cal_average_speed [] = 0 ∧
    cal_average_speed [rec1] =
      (([rec1].map cal_instantaneous_speed).sum /
        ((([rec1] : List StateVector).length : ℕ) : ℝ)) :=
  ⟨claim4_average_speed.1, claim4_average_speed.2 [rec1] (by simp)⟩

/-- C5: on every non-empty dataset `get_closest_data_point` returns a
record whose epoch (parsed to an instant by the abstracted ISO-8601
parse `toInstant`) has minimal absolute delta to `now` among all records,
and every record strictly preceding it in dataset order has a strictly
larger delta — i.e. ties go to the first minimal record, by stability of
Python's sort. -/
theorem claim5_get_closest_data_point (toInstant : String → ℤ) (now : ℤ)
    (iss_data : List StateVector) (hne : iss_data ≠ []) :
    ∃ m l1 l2,
      get_closest_data_point toInstant now iss_data = some m ∧
      iss_data = l1 ++ m :: l2 ∧
      (∀ x ∈ iss_data, epochDelta toInstant now m ≤ epochDelta toInstant now x) ∧
      (∀ x ∈ l1, epochDelta toInstant now m < epochDelta toInstant now x) := by
  simpa [get_closest_data_point] using
    head_mergeSort_first_min (epochDelta toInstant now) iss_data hne

/-- A concrete instant assignment for the C5 witness, realizing the
spec's example: epochs at `now - 10`, `now - 1`, `now + 20`. -/
def toInstant0 : String → ℤ :=
  fun s => if s = "E1" then -10 else if s = "E2" then -1 else 20

/-- Witness for C5 at the spec's three-epoch example dataset. -/
theorem claim5_witness :
    ∃ m l1 l2,
      get_closest_data_point toInstant0 0 [rec1, rec2, rec3] = some m ∧
      [rec1, rec2, rec3] = l1 ++ m :: l2 ∧
      (∀ x ∈ [rec1, rec2, rec3],
        epochDelta toInstant0 0 m ≤ epochDelta toInstant0 0 x) ∧
      (∀ x ∈ l1, epochDelta toInstant0 0 m < epochDelta toInstant0 0 x) :=
  claim5_get_closest_data_point toInstant0 0 [rec1, rec2, rec3] (by simp)

/-- C6: the location endpoint can never match any record of the parsed
dataset — the handler looks up the lowercase key `"epoch"` while every
record produced by `parse_iss_data` carries only the uppercase `"EPOCH"`
key — so for every dataset of parsed records, every requested epoch and
every geocoder behaviour, the handler answers 404 `"Epoch not found"`;
in particular it never computes a geodetic position from a matched
record's cartesian coordinates (and would read the position from a
non-existent nested `"position"` dictionary, i.e. `(0, 0, 0)`, if it
ever did match). -/
theorem claim6_location_never_found (geocode : ℝ → ℝ → Option String)
    (data : List StateVector) (epoch : String) :
    get_epoch_location geocode data epoch = LocResult.notFound := by
  unfold get_epoch_location
  have hfind : data.find?
      (fun s => pyEqStr (dictGet s.toDict "epoch") epoch) = none := by
    apply List.find?_eq_none.mpr
    intro s _hs
    have h0 : pyEqStr (dictGet s.toDict "epoch") epoch = false := rfl
    simp [h0]
  rw [hfind]

/-- C7: the `/epochs/<epoch>` lookup returns exactly the records whose
`EPOCH` field is string-equal to the requested epoch, preserving dataset
order (the matches form a sublist of the dataset), and answers 404 when
no record matches; the dataset itself is not modified (the operation is
a pure filter of its input). -/
theorem claim7_find_by_epoch (data : List StateVector) (epoch : String) :
    (∀ r, r ∈ data.filter (fun d => d.EPOCH == epoch) ↔
      (r ∈ data ∧ r.EPOCH = epoch)) ∧
    List.Sublist (data.filter (fun d => d.EPOCH == epoch)) data ∧
    (data.filter (fun d => d.EPOCH == epoch) ≠ [] →
      get_state_vectors_for_epoch data epoch =
        EpochResult.ok (data.filter (fun d => d.EPOCH == epoch))) ∧
    (data.filter (fun d => d.EPOCH == epoch) = [] →
      get_state_vectors_for_epoch data epoch = EpochResult.notFound) := by
  refine ⟨?_, List.filter_sublist _, ?_, ?_⟩
  · intro r
    simp [List.mem_filter]
  · intro hne
    have hdata : data ≠ [] := by
      intro h0
      subst h0
      simp at hne
    have h1 := isEmpty_false_of_ne_nil hdata
    have h2 := isEmpty_false_of_ne_nil hne
    unfold get_state_vectors_for_epoch
    simp only [h1, h2, Bool.false_eq_true, if_false]
  · intro hempty
    by_cases hdata : data = []
    · subst hdata
      rfl
    · have h1 := isEmpty_false_of_ne_nil hdata
      unfold get_state_vectors_for_epoch
      simp only [h1, hempty, List.isEmpty_nil, Bool.false_eq_true, if_false,
        if_true]

/-- Witness for C7 at a concrete dataset: requesting `"E1"` returns
exactly the matching record. -/
theorem claim7_witness :
    get_state_vectors_for_epoch [rec1, rec2] "E1" = EpochResult.ok [rec1] :=
  (claim7_find_by_epoch [rec1, rec2] "E1").2.2.1 (List.cons_ne_nil _ _)

/-- C9 (refuting evidence): at a concrete world whose cache holds a
dataset under `"iss_data"`, `get_iss_data_cached` does not return the
deserialized dataset — it raises `NameError` (from the unbound name
`logger`) before any value is returned; the same happens on the
cache-miss path, before any fetch or cache write occurs.  (The state is
indeed unchanged, but no dataset is ever returned.) -/
theorem claim9_cache_raises :
    get_iss_data_cached pfNone ⟨some [], none⟩ =
      (Except.error PyExc.nameError, ⟨some [], none⟩) ∧
    get_iss_data_cached pfNone ⟨none, none⟩ =
      (Except.error PyExc.nameError, ⟨none, none⟩) :=
  ⟨rfl, rfl⟩

/-- C10: whenever the HTTP fetch succeeds and parsing succeeds,
`fetch_iss_data` writes the parsed dataset to the cache and then returns
`None` — the `NameError` raised by the unbound name `logger` is converted
by the broad `except` into the `None` return; and `get_iss_data_cached`
evaluates the same unbound name on both its cache-hit and cache-miss
paths, raising `NameError` before returning any value (leaving the world
unchanged). -/
theorem claim10_logger_undefined (pf : String → Option ℝ) (w : World)
    (doc : XmlDoc) (hfeed : w.feed = some doc) :
    fetch_iss_data pf w =
      (none, { w with cache := some (parse_iss_data pf doc) }) ∧
    ∀ w2 : World,
      get_iss_data_cached pf w2 = (Except.error PyExc.nameError, w2) := by
  constructor
  · unfold fetch_iss_data
    rw [hfeed]
    rfl
  · intro w2
    unfold get_iss_data_cached
    cases hc : w2.cache <;> rfl

/-- A concrete world with an empty cache and a successful feed holding
the container-less document. -/
def wFeed : World := ⟨none, some xmlMissing⟩

/-- Witness for C10 at the concrete world `wFeed`. -/
theorem claim10_witness :
    fetch_iss_data pfNone wFeed = (none, { wFeed with cache := some [] }) ∧
    get_iss_data_cached pfNone wFeed =
      (Except.error PyExc.nameError, wFeed) :=
  ⟨(claim10_logger_undefined pfNone wFeed xmlMissing rfl).1,
    (claim10_logger_undefined pfNone wFeed xmlMissing rfl).2 wFeed⟩

end IssTracker
